import Mathlib

/-!
Verification of the AutoDaveSave autosave scheduler (src/AudoDaveSave.cpp).

Shallow embedding of the scheduler state machine. The C++ globals that the
autosave scheduler and status reporter read or write are collected into one
explicit state record; each C++ function becomes a Lean function on that
record. Host-environment inputs (the current tick count from GetTickCount64,
the success of PostMessageW, the error code from GetLastError, the local time
from GetLocalTime, the success of SetTimer) are passed as explicit parameters.

Machine-integer conventions: DWORD (32-bit unsigned) computations carry an
explicit reduction modulo 2^32 where the source can overflow or truncate
(ComputeIntervalMs and the remaining-seconds cast in BuildDebugText).
ULONGLONG tick arithmetic (GetTickCount64 milliseconds since boot) is
modelled as exact Nat: the 64-bit counter cannot wrap within half a billion
years of uptime, and no source computation on it can otherwise overflow.

UI-only calls in the source (ApplyChecks, ShowDebugWindow, menu checkmark
messages, posting WM_TIMER to the debug window) touch no scheduler field and
are therefore not part of the state transition.
-/

/-- Mirror of the Win32 SYSTEMTIME fields that the source reads
(FormatHHMMSS uses wHour, wMinute, wSecond only). -/
structure SystemTimeM where
  wHour : Nat
  wMinute : Nat
  wSecond : Nat
deriving Repr, DecidableEq

/-- The scheduler-relevant globals of src/AudoDaveSave.cpp:
`minutes` is `g_minutes` (C++ int), `enabled` is `g_enabled`,
`debug` is `g_debug`, `hostSet` records whether `g_hNppWnd` is non-null,
`timerArmed` records whether `g_autosaveTimerId` is non-zero,
`intervalMs` is `g_intervalMs` (DWORD), `nextTick` is `g_nextTick`
(ULONGLONG), and the four last-save / last-error telemetry globals. -/
structure PluginState where
  minutes : Int
  enabled : Bool
  debug : Bool
  hostSet : Bool
  timerArmed : Bool
  intervalMs : Nat
  nextTick : Nat
  lastSaveValid : Bool
  lastSaveLocal : SystemTimeM
  lastErrValid : Bool
  lastErrCode : Nat
deriving Repr, DecidableEq

/-- Model of `ComputeIntervalMs` (lines 124-128): clamp non-positive minutes to 1,
then multiply by 60*1000 in DWORD (unsigned 32-bit) arithmetic.
`safeMins` is always ≥ 1, so the int→DWORD cast is the value itself;
the unsigned multiplications reduce modulo 2^32. -/
def ComputeIntervalMs (mins : Int) : Nat :=
  let safeMins : Int := if mins ≤ 0 then 1 else mins
  (safeMins.toNat * 60 * 1000) % 4294967296

/-- Model of `StopAutosaveTimer` (lines 181-186): if no timer id, return; otherwise
KillTimer and zero the id. -/
def StopAutosaveTimer (s : PluginState) : PluginState :=
  if s.timerArmed then { s with timerArmed := false } else s

/-- Model of `StartAutosaveTimer` (lines 214-223): recompute `g_intervalMs` from
`g_minutes`, stop any pending timer, call SetTimer (`tok` is whether the
call returned a non-zero id), and set `g_nextTick = now + g_intervalMs`
where `now` is GetTickCount64 at the call. -/
def StartAutosaveTimer (now : Nat) (tok : Bool) (s : PluginState) : PluginState :=
  let s1 := { s with intervalMs := ComputeIntervalMs s.minutes }
  let s2 := StopAutosaveTimer s1
  let s3 := { s2 with timerArmed := tok }
  { s3 with nextTick := now + s3.intervalMs }

/-- Model of `AutosaveTimerProc` (lines 188-212). Parameters are the host inputs at
this firing: `now` is GetTickCount64, `err` the GetLastError value read on a
failed post, `postOk` whether PostMessageW accepted the save-all command,
`t` the GetLocalTime result. Returns the new state together with the number
of save-all dispatch attempts made during the firing (the PostMessageW call
count). The final debug-window WM_TIMER post in the source repaints the
debug panel only and changes no scheduler field. -/
def AutosaveTimerProc (now err : Nat) (postOk : Bool) (t : SystemTimeM)
    (s : PluginState) : PluginState × Nat :=
  if !s.enabled then (s, 0)
  else if !s.hostSet then (s, 0)
  else
    let s1 := { s with lastErrValid := false, lastErrCode := 0 }
    let s2 :=
      if !postOk then { s1 with lastErrValid := true, lastErrCode := err }
      else { s1 with lastSaveValid := true, lastSaveLocal := t }
    ({ s2 with nextTick := now + s2.intervalMs }, 1)

/-- Model of `ToggleAutosave` (lines 637-651): flip `g_enabled`; start or stop the
timer accordingly. ApplyChecks and the debug-window refresh are UI only. -/
def ToggleAutosave (now : Nat) (tok : Bool) (s : PluginState) : PluginState :=
  let s1 := { s with enabled := !s.enabled }
  if s1.enabled then StartAutosaveTimer now tok s1 else StopAutosaveTimer s1

/-- Model of `SetMinutes` (lines 653-664): store the clamped minutes; restart the
timer only when enabled. ApplyChecks / ShowDebugWindow are UI only. -/
def SetMinutes (m : Int) (now : Nat) (tok : Bool) (s : PluginState) : PluginState :=
  let s1 := { s with minutes := if m ≤ 0 then 1 else m }
  if s1.enabled then StartAutosaveTimer now tok s1 else s1

/-- Model of `FormatMMSS` (lines 130-138). -/
def FormatMMSS (totalSeconds : Nat) : String :=
  toString (totalSeconds / 60) ++ "m " ++ toString (totalSeconds % 60) ++ "s"

/-- Model of `FormatHHMMSS` (lines 140-147). -/
def FormatHHMMSS (st : SystemTimeM) : String :=
  (if st.wHour < 10 then "0" else "") ++ toString st.wHour ++ ":" ++
  (if st.wMinute < 10 then "0" else "") ++ toString st.wMinute ++ ":" ++
  (if st.wSecond < 10 then "0" else "") ++ toString st.wSecond

/-- The remaining-seconds computation inside `BuildDebugText` (lines
243-246): `remainSec` starts at 0 and is set to `(DWORD)((g_nextTick - now)
/ 1000u)` only when `g_nextTick > now`; the cast to DWORD truncates
modulo 2^32. -/
def remainSecs (now : Nat) (s : PluginState) : Nat :=
  if s.nextTick > now then ((s.nextTick - now) / 1000) % 4294967296 else 0

/-- Model of `BuildDebugText` (lines 230-259). Returns the built text together with
the scheduler state after the call; the body contains no assignment to any
global, which the pass-through second component records. `now` is the
GetTickCount64 value read inside the enabled branch. -/
def BuildDebugText (now : Nat) (s : PluginState) : String × PluginState :=
  let l1 := "Enabled: " ++ (if s.enabled then "Yes" else "No") ++ "\r\n"
  let l2 := "Interval: " ++ toString s.minutes ++ " minute(s)\r\n"
  let l3 :=
    if !s.enabled then "Next autosave: n/a\r\n"
    else "Next autosave in: " ++ FormatMMSS (remainSecs now s) ++ "\r\n"
  let l4 := "Last autosave at: " ++
    (if s.lastSaveValid then FormatHHMMSS s.lastSaveLocal else "n/a") ++ "\r\n"
  let l5 := "Last PostMessage error: " ++
    (if s.lastErrValid then toString s.lastErrCode else "none") ++ "\r\n\r\n"
  let l6 := "Notes:\r\n- Untitled tabs can trigger Save As dialogs.\r\n" ++
    "- Debug refresh interval: 1 second.\r\n"
  (l1 ++ l2 ++ l3 ++ l4 ++ l5 ++ l6, s)

/-- Scheduler-relevant events the host can deliver: a timer firing (with its
host inputs), a Start-or-Stop-Autosave menu action, and a set-interval menu
action. -/
inductive Ev where
  | fire (now err : Nat) (postOk : Bool) (t : SystemTimeM)
  | toggle (now : Nat) (tok : Bool)
  | setMin (m : Int) (now : Nat) (tok : Bool)
deriving Repr, DecidableEq

/-- Whether an event is the enable/disable menu toggle. -/
def Ev.isToggle : Ev → Bool
  | .toggle _ _ => true
  | _ => false

/-- One event step: the resulting state and the number of save-all
dispatch attempts the event caused. -/
def step (s : PluginState) : Ev → PluginState × Nat
  | .fire now err postOk t => AutosaveTimerProc now err postOk t s
  | .toggle now tok => (ToggleAutosave now tok s, 0)
  | .setMin m now tok => (SetMinutes m now tok s, 0)

/-- Run a list of events from a state, accumulating the total number of
save-all dispatch attempts. -/
def run (s : PluginState) : List Ev → PluginState × Nat
  | [] => (s, 0)
  | e :: rest =>
    ((run (step s e).1 rest).1, (step s e).2 + (run (step s e).1 rest).2)

/-- The hard-coded startup state applied in `setInfo` (lines 709-743) with
the host handle set: minutes=3, enabled, debug off, timer armed with
`intervalMs = 180000` and `nextTick = 0 + 180000` by the startup
`StartAutosaveTimer` at tick 0. -/
def initState : PluginState :=
  { minutes := 3, enabled := true, debug := false, hostSet := true,
    timerArmed := true, intervalMs := 180000, nextTick := 180000,
    lastSaveValid := false, lastSaveLocal := ⟨0, 0, 0⟩,
    lastErrValid := false, lastErrCode := 0 }

/-- A state exhibiting the DWORD truncation in the remaining-seconds
computation: the next fire is 2^32 seconds in the future. -/
def farFutureState : PluginState :=
  { initState with nextTick := 4294967296000 }

theorem StopAutosaveTimer_enabled (s : PluginState) :
    (StopAutosaveTimer s).enabled = s.enabled := by
  unfold StopAutosaveTimer; split <;> rfl

theorem StopAutosaveTimer_armed (s : PluginState) :
    (StopAutosaveTimer s).timerArmed = false := by
  unfold StopAutosaveTimer; split <;> simp_all

theorem StartAutosaveTimer_spec (now : Nat) (tok : Bool) (s : PluginState) :
    StartAutosaveTimer now tok s =
      { s with intervalMs := ComputeIntervalMs s.minutes, timerArmed := tok,
               nextTick := now + ComputeIntervalMs s.minutes } := by
  cases h : s.timerArmed <;> simp [StartAutosaveTimer, StopAutosaveTimer, h]

theorem toggle_off (now : Nat) (tok : Bool) (s : PluginState)
    (hs : s.enabled = true) :
    ToggleAutosave now tok s = StopAutosaveTimer { s with enabled := false } := by
  simp [ToggleAutosave, hs]

theorem step_disabled (e : Ev) (s : PluginState) (hs : s.enabled = false)
    (ht : e.isToggle = false) :
    (step s e).2 = 0 ∧ (step s e).1.enabled = false := by
  cases e with
  | fire now err postOk t => simp [step, AutosaveTimerProc, hs]
  | toggle now tok => simp [Ev.isToggle] at ht
  | setMin m now tok => simp [step, SetMinutes, hs]

theorem run_disabled (evs : List Ev) : ∀ s : PluginState, s.enabled = false →
    (∀ e ∈ evs, e.isToggle = false) → (run s evs).2 = 0 := by
  induction evs with
  | nil => intro s _ _; rfl
  | cons e rest ih =>
    intro s hs h
    have h1 := step_disabled e s hs (h e (List.mem_cons_self e rest))
    have h2 := ih (step s e).1 h1.2 (fun x hx => h x (List.mem_cons_of_mem e hx))
    show (step s e).2 + (run (step s e).1 rest).2 = 0
    rw [h1.1, h2]

/-- Claim C1, counterexample to the claim as stated: at an enabled firing
with the host window handle unset (`g_hNppWnd == nullptr`, line 191), no
save-all dispatch is attempted and `nextFireTimestamp` is not recomputed,
contradicting "if enabled, exactly one save-all dispatch is attempted and
nextFireTimestamp is recomputed" for the firing at t=181000ms with
interval 3min. -/
theorem c1_fire_counterexample :
    ({ initState with hostSet := false } : PluginState).enabled = true ∧
    (AutosaveTimerProc 181000 0 true ⟨0, 0, 0⟩
      { initState with hostSet := false }).2 = 0 ∧
    (AutosaveTimerProc 181000 0 true ⟨0, 0, 0⟩
      { initState with hostSet := false }).1.nextTick = 180000 := by
  decide

/-- Claim C1 (amended): for every timer firing, if the scheduler is disabled
the firing changes nothing and dispatches nothing; likewise if the host
window handle is unset; if enabled and the host handle is set, exactly one
save-all dispatch is attempted and nextFireTimestamp is recomputed as the
firing time plus the configured interval. -/
theorem c1_fire_behavior (now err : Nat) (postOk : Bool) (t : SystemTimeM)
    (s : PluginState) :
    (s.enabled = false → AutosaveTimerProc now err postOk t s = (s, 0)) ∧
    (s.enabled = true → s.hostSet = false →
      AutosaveTimerProc now err postOk t s = (s, 0)) ∧
    (s.enabled = true → s.hostSet = true →
      (AutosaveTimerProc now err postOk t s).2 = 1 ∧
      (AutosaveTimerProc now err postOk t s).1.nextTick = now + s.intervalMs) := by
  refine ⟨fun h => ?_, fun h1 h2 => ?_, fun h1 h2 => ?_⟩
  · simp [AutosaveTimerProc, h]
  · simp [AutosaveTimerProc, h1, h2]
  · cases postOk <;> simp [AutosaveTimerProc, h1, h2]

/-- Claim C1 witness: the spec scenario, interval already armed at 180000ms,
firing at t=181000ms with the dispatch accepted: one dispatch attempt and
the new nextFireTimestamp is 361000ms. -/
theorem c1_fire_behavior_witness :
    (AutosaveTimerProc 181000 0 true ⟨0, 0, 0⟩ initState).2 = 1 ∧
    (AutosaveTimerProc 181000 0 true ⟨0, 0, 0⟩ initState).1.nextTick = 361000 :=
  (c1_fire_behavior 181000 0 true ⟨0, 0, 0⟩ initState).2.2 rfl rfl

/-- Claim C2: for every intervalMinutes ≤ 0, the computed timer period is
60000 ms, the stored interval after SetMinutes is 1 minute, and when the
scheduler is enabled the armed interval is 60000 ms. -/
theorem c2_interval_clamp (m : Int) (hm : m ≤ 0) (now : Nat) (tok : Bool)
    (s : PluginState) :
    ComputeIntervalMs m = 60000 ∧
    (SetMinutes m now tok s).minutes = 1 ∧
    (s.enabled = true → (SetMinutes m now tok s).intervalMs = 60000) := by
  have hc : ComputeIntervalMs 1 = 60000 := by decide
  refine ⟨?_, ?_, fun hen => ?_⟩
  · simp [ComputeIntervalMs, hm]
  · simp [SetMinutes, hm, StartAutosaveTimer_spec]
    split <;> rfl
  · simp [SetMinutes, hm, hen, StartAutosaveTimer_spec, hc]

/-- Claim C2 witness at intervalMinutes = -5 on the enabled startup state. -/
theorem c2_interval_clamp_witness :
    ComputeIntervalMs (-5) = 60000 ∧
    (SetMinutes (-5) 300000 true initState).minutes = 1 ∧
    (SetMinutes (-5) 300000 true initState).intervalMs = 60000 :=
  ⟨(c2_interval_clamp (-5) (by decide) 300000 true initState).1,
   (c2_interval_clamp (-5) (by decide) 300000 true initState).2.1,
   (c2_interval_clamp (-5) (by decide) 300000 true initState).2.2 rfl⟩

/-- Claim C3: changing the interval while enabled restarts the schedule:
the new nextFireTimestamp is the change time plus the new (clamped)
interval, independent of the previously scheduled nextFireTimestamp. -/
theorem c3_interval_change_restarts (m : Int) (now : Nat) (tok : Bool)
    (s : PluginState) (hen : s.enabled = true) :
    (SetMinutes m now tok s).nextTick =
      now + ComputeIntervalMs (if m ≤ 0 then 1 else m) ∧
    (SetMinutes m now tok s).intervalMs =
      ComputeIntervalMs (if m ≤ 0 then 1 else m) := by
  constructor <;> simp [SetMinutes, hen, StartAutosaveTimer_spec]

/-- Claim C3 witness: switching to 1 minute at t=300000ms while enabled with
the old schedule at 180000ms gives nextFireTimestamp 360000ms. -/
theorem c3_interval_change_restarts_witness :
    (SetMinutes 1 300000 true initState).nextTick = 360000 ∧
    (SetMinutes 1 300000 true initState).intervalMs = 60000 :=
  ⟨(c3_interval_change_restarts 1 300000 true initState rfl).1,
   (c3_interval_change_restarts 1 300000 true initState rfl).2⟩

/-- Claim C4: toggling enable from true to false cancels the pending timer
(the timer id is zeroed), and along any subsequent event trace that
contains no re-enable toggle, no save-all dispatch is ever attempted. -/
theorem c4_disable_cancels (now : Nat) (tok : Bool) (s : PluginState)
    (hs : s.enabled = true) :
    (ToggleAutosave now tok s).enabled = false ∧
    (ToggleAutosave now tok s).timerArmed = false ∧
    ∀ evs : List Ev, (∀ e ∈ evs, e.isToggle = false) →
      (run (ToggleAutosave now tok s) evs).2 = 0 := by
  have he : (ToggleAutosave now tok s).enabled = false := by
    rw [toggle_off now tok s hs, StopAutosaveTimer_enabled]
  refine ⟨he, ?_, fun evs hevs => run_disabled evs _ he hevs⟩
  rw [toggle_off now tok s hs, StopAutosaveTimer_armed]

/-- Claim C4 witness: the spec scenario, disable at t=50000ms with the next
fire scheduled for 180000ms; a stray firing at t=180000ms dispatches
nothing. -/
theorem c4_disable_cancels_witness :
    (ToggleAutosave 50000 true initState).enabled = false ∧
    (ToggleAutosave 50000 true initState).timerArmed = false ∧
    (run (ToggleAutosave 50000 true initState)
      [Ev.fire 180000 0 true ⟨0, 0, 0⟩]).2 = 0 :=
  ⟨(c4_disable_cancels 50000 true initState rfl).1,
   (c4_disable_cancels 50000 true initState rfl).2.1,
   (c4_disable_cancels 50000 true initState rfl).2.2
     [Ev.fire 180000 0 true ⟨0, 0, 0⟩] (by decide)⟩

/-- Claim C5, counterexample to the claim as stated: with nextFireTimestamp
2^32 seconds in the future (nextTick = 4294967296000 ms, now = 0), the
DWORD cast on line 246 truncates the true floor 4294967296 to 0, so the
reported remaining time is not the floor in whole seconds of
(nextFireTimestamp - now). -/
theorem c5_remaining_counterexample :
    (0 : Nat) < farFutureState.nextTick ∧
    (farFutureState.nextTick - 0) / 1000 = 4294967296 ∧
    remainSecs 0 farFutureState = 0 := by
  decide

/-- Claim C5 (amended): the reported remaining time is exactly zero whenever
now ≥ nextFireTimestamp, and is the floor in whole seconds of
(nextFireTimestamp - now) whenever nextFireTimestamp is in the future and
that floor is below 2^32 (the DWORD range; always the case for reachable
states, whose remaining time is at most one armed interval < 2^32 ms). -/
theorem c5_remaining_time (now : Nat) (s : PluginState) :
    (s.nextTick ≤ now → remainSecs now s = 0) ∧
    (now < s.nextTick → (s.nextTick - now) / 1000 < 4294967296 →
      remainSecs now s = (s.nextTick - now) / 1000) := by
  constructor
  · intro h
    simp [remainSecs, Nat.not_lt.mpr h]
  · intro h1 h2
    simp [remainSecs, h1, Nat.mod_eq_of_lt h2]

/-- Claim C5 witness: overdue at t=200000ms reports 0; at t=1000ms with the
next fire at 180000ms it reports 179 seconds. -/
theorem c5_remaining_time_witness :
    remainSecs 200000 initState = 0 ∧ remainSecs 1000 initState = 179 :=
  ⟨(c5_remaining_time 200000 initState).1 (by decide),
   (c5_remaining_time 1000 initState).2 (by decide) (by decide)⟩

/-- Claim C6: on an enabled firing whose dispatch fails, exactly one
dispatch is attempted (no retry), the scheduler stays enabled and the timer
stays armed, the failure is recorded as the last-error flag and code, and
nextFireTimestamp advances to now + interval, the same value as on a
successful dispatch. -/
theorem c6_failure_policy (now err : Nat) (t : SystemTimeM) (s : PluginState)
    (hen : s.enabled = true) (hh : s.hostSet = true) :
    (AutosaveTimerProc now err false t s).2 = 1 ∧
    (AutosaveTimerProc now err false t s).1.enabled = true ∧
    (AutosaveTimerProc now err false t s).1.timerArmed = s.timerArmed ∧
    (AutosaveTimerProc now err false t s).1.lastErrValid = true ∧
    (AutosaveTimerProc now err false t s).1.lastErrCode = err ∧
    (AutosaveTimerProc now err false t s).1.nextTick = now + s.intervalMs ∧
    (AutosaveTimerProc now err false t s).1.nextTick =
      (AutosaveTimerProc now err true t s).1.nextTick := by
  simp [AutosaveTimerProc, hen, hh]

/-- Claim C6 witness: a failed dispatch (error code 5) at t=181000ms on the
startup state. -/
theorem c6_failure_policy_witness :
    (AutosaveTimerProc 181000 5 false ⟨0, 0, 0⟩ initState).2 = 1 ∧
    (AutosaveTimerProc 181000 5 false ⟨0, 0, 0⟩ initState).1.enabled = true ∧
    (AutosaveTimerProc 181000 5 false ⟨0, 0, 0⟩ initState).1.timerArmed = true ∧
    (AutosaveTimerProc 181000 5 false ⟨0, 0, 0⟩ initState).1.lastErrValid = true ∧
    (AutosaveTimerProc 181000 5 false ⟨0, 0, 0⟩ initState).1.lastErrCode = 5 ∧
    (AutosaveTimerProc 181000 5 false ⟨0, 0, 0⟩ initState).1.nextTick = 361000 ∧
    (AutosaveTimerProc 181000 5 false ⟨0, 0, 0⟩ initState).1.nextTick =
      (AutosaveTimerProc 181000 5 true ⟨0, 0, 0⟩ initState).1.nextTick :=
  c6_failure_policy 181000 5 ⟨0, 0, 0⟩ initState rfl rfl

/-- Claim C7: the status reporter is pure and deterministic: two invocations
on the same current time and the same scheduler state build the same text,
and an invocation leaves the scheduler state unchanged. -/
theorem c7_reporter_pure (now : Nat) (s : PluginState) (now2 : Nat)
    (s2 : PluginState) (h1 : now = now2) (h2 : s = s2) :
    (BuildDebugText now s).1 = (BuildDebugText now2 s2).1 ∧
    (BuildDebugText now s).2 = s := by
  subst h1; subst h2; exact ⟨rfl, rfl⟩

/-- Claim C7 witness at t=1000ms on the startup state. -/
theorem c7_reporter_pure_witness :
    (BuildDebugText 1000 initState).1 = (BuildDebugText 1000 initState).1 ∧
    (BuildDebugText 1000 initState).2 = initState :=
  c7_reporter_pure 1000 initState 1000 initState rfl rfl

/-- Claim C8: changing the interval while disabled updates only the stored
minutes (clamped to at least 1): every other field — the armed timer, the
armed interval in ms, nextFireTimestamp, the last-save and last-error
records — is unchanged, and the change dispatches nothing. -/
theorem c8_setminutes_disabled_frame (m : Int) (now : Nat) (tok : Bool)
    (s : PluginState) (hs : s.enabled = false) :
    SetMinutes m now tok s = { s with minutes := if m ≤ 0 then 1 else m } ∧
    1 ≤ (SetMinutes m now tok s).minutes ∧
    (step s (Ev.setMin m now tok)).2 = 0 := by
  have he : SetMinutes m now tok s =
      { s with minutes := if m ≤ 0 then 1 else m } := by
    simp [SetMinutes, hs]
  refine ⟨he, ?_, rfl⟩
  rw [he]
  by_cases h : m ≤ 0
  · simp [h]
  · simp [h]
    omega

/-- Claim C8 witness at intervalMinutes = -7 on the disabled startup state. -/
theorem c8_setminutes_disabled_frame_witness :
    SetMinutes (-7) 300000 true { initState with enabled := false } =
      { initState with enabled := false, minutes := 1 } ∧
    1 ≤ (SetMinutes (-7) 300000 true { initState with enabled := false }).minutes ∧
    (step { initState with enabled := false }
      (Ev.setMin (-7) 300000 true)).2 = 0 :=
  c8_setminutes_disabled_frame (-7) 300000 true
    { initState with enabled := false } rfl

/-- Claim C9: an enabled firing clears the last-error record before the
dispatch attempt, so after a successful dispatch the last-error flag is
clear and the code is 0 regardless of earlier failures, and after a failed
dispatch the recorded code is exactly the error of this attempt. -/
theorem c9_error_reflects_last (now err : Nat) (t : SystemTimeM)
    (s : PluginState) (hen : s.enabled = true) (hh : s.hostSet = true) :
    (AutosaveTimerProc now err true t s).1.lastErrValid = false ∧
    (AutosaveTimerProc now err true t s).1.lastErrCode = 0 ∧
    (AutosaveTimerProc now err false t s).1.lastErrCode = err := by
  simp [AutosaveTimerProc, hen, hh]

/-- Claim C9 witness: a successful firing on a state carrying a previous
error (flag set, code 99) leaves the last-error record reading none. -/
theorem c9_error_reflects_last_witness :
    (AutosaveTimerProc 181000 0 true ⟨0, 0, 0⟩
      { initState with lastErrValid := true, lastErrCode := 99 }).1.lastErrValid
        = false ∧
    (AutosaveTimerProc 181000 0 true ⟨0, 0, 0⟩
      { initState with lastErrValid := true, lastErrCode := 99 }).1.lastErrCode
        = 0 ∧
    (AutosaveTimerProc 181000 7 false ⟨0, 0, 0⟩
      { initState with lastErrValid := true, lastErrCode := 99 }).1.lastErrCode
        = 7 :=
  c9_error_reflects_last 181000 7 ⟨0, 0, 0⟩
    { initState with lastErrValid := true, lastErrCode := 99 } rfl rfl

/-- Claim C10: an enabled firing with the host window handle unset returns
before the dispatch and before the telemetry writes: the state is returned
unchanged and no dispatch is attempted. -/
theorem c10_nullhost_frame (now err : Nat) (postOk : Bool) (t : SystemTimeM)
    (s : PluginState) (hen : s.enabled = true) (hh : s.hostSet = false) :
    AutosaveTimerProc now err postOk t s = (s, 0) := by
  simp [AutosaveTimerProc, hen, hh]

/-- Claim C10 witness: the startup state with the handle cleared, firing at
t=181000ms, is returned unchanged with zero dispatches. -/
theorem c10_nullhost_frame_witness :
    AutosaveTimerProc 181000 0 true ⟨0, 0, 0⟩
      { initState with hostSet := false } =
      ({ initState with hostSet := false }, 0) :=
  c10_nullhost_frame 181000 0 true ⟨0, 0, 0⟩
    { initState with hostSet := false } rfl rfl
